import Mathlib

/-!
Shallow embedding of the trip-night CHIP-8 core (crates trip-night-core and
trip-night-instruction) for checking the natural-language specification.

Machine integers are modelled as Nat with explicit wrapping:
a u8 value is a Nat kept below 256 by the operations that produce one,
a u16 opcode is a Nat below 65536, a u64 screen row is a Nat below 2^64.
Arrays indexed by in-range indices are modelled as total functions.
Rust panics that the verified claims depend on (the unwrap in Machine::cycle)
are modelled with Option; other panic paths (stack over/underflow, out of
range memory slices) are not claims here and are left total.
-/

namespace TripNight

/-! ### OpCode bit-field accessors (trip-night-core/src/instruction.rs, OpCode) -/

/-- get_first_nibble: bits 12..16 of the opcode word. -/
def getFirstNibble (op : Nat) : Nat := op / 4096 % 16

/-- get_x: bits 8..12, always below 16, so RegIdent::try_from succeeds. -/
def getX (op : Nat) : Fin 16 := ⟨op / 256 % 16, Nat.mod_lt _ (by norm_num)⟩

/-- get_y: bits 4..8. -/
def getY (op : Nat) : Fin 16 := ⟨op / 16 % 16, Nat.mod_lt _ (by norm_num)⟩

/-- get_n: bits 0..4. -/
def getN (op : Nat) : Nat := op % 16

/-- get_nn: bits 0..8. -/
def getNN (op : Nat) : Nat := op % 256

/-- get_nnn: bits 0..12 (an Address). -/
def getNNN (op : Nat) : Nat := op % 4096

/-- The conventional flag register, RegIdent::VF. -/
def VF : Fin 16 := ⟨15, by norm_num⟩

/-! ### u8 arithmetic helpers (Rust core integer methods, on Nat inputs below 256) -/

/-- u8::overflowing_add: wrapped sum and the carry-out bit. -/
def U8.overflowing_add (a b : Nat) : Nat × Bool := ((a + b) % 256, decide (256 ≤ a + b))

/-- u8::overflowing_sub: wrapped difference and the borrow bit. -/
def U8.overflowing_sub (a b : Nat) : Nat × Bool := ((a + 256 - b) % 256, decide (a < b))

/-- u8::wrapping_add. -/
def U8.wrapping_add (a b : Nat) : Nat := (a + b) % 256

/-- u8::overflowing_shr: the shift amount is taken modulo 8 and the Bool reports
whether the amount was at least the bit width, NOT the bit shifted out. -/
def U8.overflowing_shr (a n : Nat) : Nat × Bool := (a >>> (n % 8), decide (8 ≤ n))

/-- u8::overflowing_shl: same convention as overflowing_shr. -/
def U8.overflowing_shl (a n : Nat) : Nat × Bool := ((a <<< (n % 8)) % 256, decide (8 ≤ n))

/-! ### Screen (trip-night-core/src/screen.rs) -/

inductive PixelState | Set | Unset
deriving DecidableEq, Repr

inductive FlipResult | UnsetBit | NoUnsetBit
deriving DecidableEq, Repr

/-- 32 row bitmasks of 64 bits each (row y is meaningful for y below 32),
plus the dirty flag. -/
structure Screen where
  inner : Nat → Nat
  changed : Bool

/-- Screen::clamp: x & 0x3F, y & 0x1F. -/
def Screen.clamp (x y : Nat) : Nat × Nat := (x &&& 0x3F, y &&& 0x1F)

/-- Screen::generate_mask: the 8-bit vector placed in the most significant byte
of a u64, then logically shifted right by x (u64::overflowing_shr takes the
shift amount modulo 64 and the callers always pass a clamped x below 64). -/
def Screen.generate_mask (vector x : Nat) : Nat := (vector <<< 56) >>> (x % 64)

/-- Screen::clear. -/
def Screen.clear (_s : Screen) : Screen := { inner := fun _ => 0, changed := true }

/-- Screen::reset_changed_flag. -/
def Screen.reset_changed_flag (s : Screen) : Screen := { s with changed := false }

/-- Screen::flip_vectored: XOR the mask into row y, report whether a set bit of
the pre-XOR row overlapped the mask (that is, whether the XOR unset a bit). -/
def Screen.flip_vectored (s : Screen) (vector x y : Nat) : Screen × FlipResult :=
  let xc := (Screen.clamp x y).1
  let yc := (Screen.clamp x y).2
  let mask := Screen.generate_mask vector xc
  let no_overlap := s.inner yc &&& mask = 0
  let flipped : Screen :=
    { inner := fun r => if r = yc then s.inner yc ^^^ mask else s.inner r
      changed := true }
  (flipped, if no_overlap then FlipResult.NoUnsetBit else FlipResult.UnsetBit)

/-! ### Machine state (trip-night-core/src/machine.rs, State) -/

/-- The register file, memory, call stack, timers, index register, program
counter and the Screen. ram and stack are total functions standing for the
fixed arrays indexed at in-range positions. -/
structure MachState where
  ram : Nat → Nat
  pc : Nat
  index : Nat
  stack : Nat → Nat
  stack_pointer : Nat
  delay_timer : Nat
  sound_timer : Nat
  registers : Fin 16 → Nat
  screen : Screen

def MachState.reg_write (s : MachState) (r : Fin 16) (v : Nat) : MachState :=
  { s with registers := fun i => if i = r then v else s.registers i }

def MachState.reg_read (s : MachState) (r : Fin 16) : Nat := s.registers r

def MachState.stack_push (s : MachState) (v : Nat) : MachState :=
  { s with stack := fun i => if i = s.stack_pointer then v else s.stack i
           stack_pointer := s.stack_pointer + 1 }

/-- State::stack_pop. The Rust u8 decrement panics in debug builds when the
stack pointer is 0; the truncated Nat subtraction used here keeps the model
total (no claim is about stack underflow). -/
def MachState.stack_pop (s : MachState) : MachState × Nat :=
  ({ s with stack_pointer := s.stack_pointer - 1 }, s.stack (s.stack_pointer - 1))

/-! ### Instruction semantics (trip-night-instruction/src/lib.rs)

Each Rust instruction struct becomes a structure (or a fieldless marker),
its DecodeOpCode::decode impl a decode function, its execute method an
execute function on MachState. The debug assertions of the decode impls do
not alter release behavior; those of ShiftLeft and ShiftLeftLegacy are
modelled separately as the predicates decodeAssert below. -/

/-- 00E0: clear the display. -/
def ClearScreen.execute (state : MachState) : MachState :=
  { state with screen := state.screen.clear }

/-- DXYN operands. -/
structure Draw where
  x_reg : Fin 16
  y_reg : Fin 16
  height : Nat

def Draw.decode (opcode : Nat) : Draw :=
  { x_reg := getX opcode, y_reg := getY opcode, height := getN opcode }

/-- DXYN: for each i below height, XOR-composite the sprite byte at ram[index + i]
onto the row at (Vx, Vy + i); VF is 1 exactly when some row flip unset a bit. -/
def Draw.execute (d : Draw) (state : MachState) : MachState :=
  let x := state.reg_read d.x_reg
  let y := state.reg_read d.y_reg
  let res := (List.range d.height).foldl
    (fun (acc : Screen × Bool) i =>
      match acc.1.flip_vectored (state.ram (state.index + i)) x (y + i) with
      | (scr, FlipResult.UnsetBit) => (scr, true)
      | (scr, FlipResult.NoUnsetBit) => (scr, acc.2))
    (state.screen, false)
  let state := { state with screen := res.1 }
  if res.2 then state.reg_write VF 0x01 else state.reg_write VF 0x00

/-- 00EE: return from a subroutine. -/
def Ret.execute (state : MachState) : MachState :=
  let popped := state.stack_pop
  { popped.1 with pc := popped.2 }

structure Jump where
  addr : Nat

def Jump.decode (opcode : Nat) : Jump := { addr := getNNN opcode }

/-- 1NNN: pc is set to nnn. -/
def Jump.execute (j : Jump) (state : MachState) : MachState :=
  { state with pc := j.addr }

structure Call where
  addr : Nat

def Call.decode (opcode : Nat) : Call := { addr := getNNN opcode }

/-- 2NNN: push the current pc, then jump to nnn. -/
def Call.execute (c : Call) (state : MachState) : MachState :=
  let state := state.stack_push state.pc
  { state with pc := c.addr }

structure SkipEqConst where
  left : Fin 16
  right : Nat

def SkipEqConst.decode (opcode : Nat) : SkipEqConst :=
  { left := getX opcode, right := getNN opcode }

/-- 3XNN: skip the next instruction if Vx = nn. -/
def SkipEqConst.execute (k : SkipEqConst) (state : MachState) : MachState :=
  if state.reg_read k.left = k.right then { state with pc := state.pc + 2 } else state

structure SkipNeqConst where
  left : Fin 16
  right : Nat

def SkipNeqConst.decode (opcode : Nat) : SkipNeqConst :=
  { left := getX opcode, right := getNN opcode }

/-- 4XNN: skip the next instruction if Vx is not nn. -/
def SkipNeqConst.execute (k : SkipNeqConst) (state : MachState) : MachState :=
  if state.reg_read k.left ≠ k.right then { state with pc := state.pc + 2 } else state

structure SkipEq where
  left : Fin 16
  right : Fin 16

def SkipEq.decode (opcode : Nat) : SkipEq :=
  { left := getX opcode, right := getY opcode }

/-- 5XY0: skip the next instruction if Vx = Vy. -/
def SkipEq.execute (k : SkipEq) (state : MachState) : MachState :=
  if state.reg_read k.left = state.reg_read k.right then { state with pc := state.pc + 2 }
  else state

structure SkipNeq where
  left : Fin 16
  right : Fin 16

def SkipNeq.decode (opcode : Nat) : SkipNeq :=
  { left := getX opcode, right := getY opcode }

/-- 9XY0: skip the next instruction if Vx is not Vy. -/
def SkipNeq.execute (k : SkipNeq) (state : MachState) : MachState :=
  if state.reg_read k.left ≠ state.reg_read k.right then { state with pc := state.pc + 2 }
  else state

structure JumpOffset where
  addr : Nat

def JumpOffset.decode (opcode : Nat) : JumpOffset := { addr := getNNN opcode }

/-- BNNN: pc is set to nnn plus V0. -/
def JumpOffset.execute (j : JumpOffset) (state : MachState) : MachState :=
  { state with pc := j.addr + state.reg_read ⟨0, by norm_num⟩ }

structure SetReg where
  target : Fin 16
  value : Nat

def SetReg.decode (opcode : Nat) : SetReg :=
  { target := getX opcode, value := getNN opcode }

/-- 6XNN (struct Set in the source): Vx is set to nn. -/
def SetReg.execute (k : SetReg) (state : MachState) : MachState :=
  state.reg_write k.target k.value

structure AddConst where
  target : Fin 16
  value : Nat

def AddConst.decode (opcode : Nat) : AddConst :=
  { target := getX opcode, value := getNN opcode }

/-- 7XNN: Vx is set to Vx + nn wrapping, no flag effect. -/
def AddConst.execute (k : AddConst) (state : MachState) : MachState :=
  state.reg_write k.target (U8.wrapping_add (state.reg_read k.target) k.value)

structure Assign where
  target : Fin 16
  from_reg : Fin 16

def Assign.decode (opcode : Nat) : Assign :=
  { target := getX opcode, from_reg := getY opcode }

/-- 8XY0: Vx is set to Vy. -/
def Assign.execute (a : Assign) (state : MachState) : MachState :=
  state.reg_write a.target (state.reg_read a.from_reg)

structure BitOr where
  left : Fin 16
  right : Fin 16

def BitOr.decode (opcode : Nat) : BitOr :=
  { left := getX opcode, right := getY opcode }

/-- 8XY1: Vx is set to Vx OR Vy. -/
def BitOr.execute (b : BitOr) (state : MachState) : MachState :=
  state.reg_write b.left (state.reg_read b.left ||| state.reg_read b.right)

structure BitAnd where
  left : Fin 16
  right : Fin 16

def BitAnd.decode (opcode : Nat) : BitAnd :=
  { left := getX opcode, right := getY opcode }

/-- 8XY2: Vx is set to Vx AND Vy. -/
def BitAnd.execute (b : BitAnd) (state : MachState) : MachState :=
  state.reg_write b.left (state.reg_read b.left &&& state.reg_read b.right)

structure BitXor where
  left : Fin 16
  right : Fin 16

def BitXor.decode (opcode : Nat) : BitXor :=
  { left := getX opcode, right := getY opcode }

/-- 8XY3: Vx is set to Vx XOR Vy. -/
def BitXor.execute (b : BitXor) (state : MachState) : MachState :=
  state.reg_write b.left (state.reg_read b.left ^^^ state.reg_read b.right)

structure Add where
  left : Fin 16
  right : Fin 16

def Add.decode (opcode : Nat) : Add :=
  { left := getX opcode, right := getY opcode }

/-- 8XY4: the carry flag is written to VF first, then the wrapped sum to Vx. -/
def Add.execute (a : Add) (state : MachState) : MachState :=
  let lhs := state.reg_read a.left
  let rhs := state.reg_read a.right
  let r := U8.overflowing_add lhs rhs
  let state := if r.2 then state.reg_write VF 0x1 else state.reg_write VF 0x0
  state.reg_write a.left r.1

structure Sub where
  left : Fin 16
  right : Fin 16

def Sub.decode (opcode : Nat) : Sub :=
  { left := getX opcode, right := getY opcode }

/-- 8XY5: VF is written first (0 on borrow, 1 otherwise), then Vx - Vy wrapped to Vx. -/
def Sub.execute (a : Sub) (state : MachState) : MachState :=
  let lhs := state.reg_read a.left
  let rhs := state.reg_read a.right
  let r := U8.overflowing_sub lhs rhs
  let state := if r.2 then state.reg_write VF 0x0 else state.reg_write VF 0x1
  state.reg_write a.left r.1

structure SubN where
  left : Fin 16
  right : Fin 16

def SubN.decode (opcode : Nat) : SubN :=
  { left := getX opcode, right := getY opcode }

/-- 8XY7: VF is written first (1 when the subtraction Vy - Vx underflowed, 0
otherwise, as in the source), then Vy - Vx wrapped to Vx. -/
def SubN.execute (a : SubN) (state : MachState) : MachState :=
  let lhs := state.reg_read a.left
  let rhs := state.reg_read a.right
  let r := U8.overflowing_sub rhs lhs
  let state := if r.2 then state.reg_write VF 0x1 else state.reg_write VF 0x0
  state.reg_write a.left r.1

structure ShiftRight where
  left : Fin 16
  right : Fin 16

def ShiftRight.decode (opcode : Nat) : ShiftRight :=
  { left := getX opcode, right := getY opcode }

/-- 8XY6 (standard): Vy is unused; VF receives the Bool of u8::overflowing_shr
(always false for a shift by 1), then Vx >> 1 is written to Vx. -/
def ShiftRight.execute (a : ShiftRight) (state : MachState) : MachState :=
  let lhs := state.reg_read a.left
  let r := U8.overflowing_shr lhs 1
  let state := if r.2 then state.reg_write VF 0x1 else state.reg_write VF 0x0
  state.reg_write a.left r.1

structure ShiftRightLegacy where
  left : Fin 16
  right : Fin 16

def ShiftRightLegacy.decode (opcode : Nat) : ShiftRightLegacy :=
  { left := getX opcode, right := getY opcode }

/-- Legacy 8XY6: same as ShiftRight but the shifted operand is Vy. -/
def ShiftRightLegacy.execute (a : ShiftRightLegacy) (state : MachState) : MachState :=
  let rhs := state.reg_read a.right
  let r := U8.overflowing_shr rhs 1
  let state := if r.2 then state.reg_write VF 0x1 else state.reg_write VF 0x0
  state.reg_write a.left r.1

structure ShiftLeft where
  left : Fin 16
  right : Fin 16

def ShiftLeft.decode (opcode : Nat) : ShiftLeft :=
  { left := getX opcode, right := getY opcode }

/-- The debug assertion in ShiftLeft::decode (source lines 770-771): first
nibble 0x8 and low nibble 0x6. -/
def ShiftLeft.decodeAssert (opcode : Nat) : Prop :=
  getFirstNibble opcode = 0x8 ∧ getN opcode = 0x6

instance : DecidablePred ShiftLeft.decodeAssert := fun _ =>
  inferInstanceAs (Decidable (_ ∧ _))

/-- 8XYE (standard): Vy is unused; VF receives the Bool of u8::overflowing_shl
(always false for a shift by 1), then Vx << 1 wrapped is written to Vx. -/
def ShiftLeft.execute (a : ShiftLeft) (state : MachState) : MachState :=
  let lhs := state.reg_read a.left
  let r := U8.overflowing_shl lhs 1
  let state := if r.2 then state.reg_write VF 0x1 else state.reg_write VF 0x0
  state.reg_write a.left r.1

structure ShiftLeftLegacy where
  left : Fin 16
  right : Fin 16

def ShiftLeftLegacy.decode (opcode : Nat) : ShiftLeftLegacy :=
  { left := getX opcode, right := getY opcode }

/-- The debug assertion in ShiftLeftLegacy::decode (source lines 806-807):
first nibble 0x8 and low nibble 0x6. -/
def ShiftLeftLegacy.decodeAssert (opcode : Nat) : Prop :=
  getFirstNibble opcode = 0x8 ∧ getN opcode = 0x6

instance : DecidablePred ShiftLeftLegacy.decodeAssert := fun _ =>
  inferInstanceAs (Decidable (_ ∧ _))

/-- Legacy 8XYE: same as ShiftLeft but the shifted operand is Vy. -/
def ShiftLeftLegacy.execute (a : ShiftLeftLegacy) (state : MachState) : MachState :=
  let rhs := state.reg_read a.right
  let r := U8.overflowing_shl rhs 1
  let state := if r.2 then state.reg_write VF 0x1 else state.reg_write VF 0x0
  state.reg_write a.left r.1

structure Random where
  target : Fin 16
  mask : Nat

def Random.decode (opcode : Nat) : Random :=
  { target := getX opcode, mask := getNN opcode }

/-- CXNN: the random number is the fixed stub constant 0x7A (the TODO in the
source); Vx receives 0x7A AND nn. -/
def Random.execute (r : Random) (state : MachState) : MachState :=
  let random_number := 0x7A
  state.reg_write r.target (random_number &&& r.mask)

structure SetIndex where
  addr : Nat

def SetIndex.decode (opcode : Nat) : SetIndex := { addr := getNNN opcode }

/-- ANNN: the index register is set to nnn. -/
def SetIndex.execute (k : SetIndex) (state : MachState) : MachState :=
  { state with index := k.addr }

/-! ### Instruction set table (trip-night-core/src/instruction.rs) -/

/-- A slot of the dispatch table: Instruction::execute takes the opcode and
mutates the state. -/
def Instr := Nat → MachState → MachState

/-- InstructionSet: a dense table of exactly 34 executable slots. -/
def InstructionSet := Fin 34 → Instr

/-- The slot constants OP_00E0 .. OP_FX65 of instruction.rs, in source order. -/
def OP_00E0 : Fin 34 := ⟨0, by norm_num⟩
def OP_00EE : Fin 34 := ⟨1, by norm_num⟩
def OP_1NNN : Fin 34 := ⟨2, by norm_num⟩
def OP_2NNN : Fin 34 := ⟨3, by norm_num⟩
def OP_3XNN : Fin 34 := ⟨4, by norm_num⟩
def OP_4XNN : Fin 34 := ⟨5, by norm_num⟩
def OP_5XY0 : Fin 34 := ⟨6, by norm_num⟩
def OP_6XNN : Fin 34 := ⟨7, by norm_num⟩
def OP_7XNN : Fin 34 := ⟨8, by norm_num⟩
def OP_8XY0 : Fin 34 := ⟨9, by norm_num⟩
def OP_8XY1 : Fin 34 := ⟨10, by norm_num⟩
def OP_8XY2 : Fin 34 := ⟨11, by norm_num⟩
def OP_8XY3 : Fin 34 := ⟨12, by norm_num⟩
def OP_8XY4 : Fin 34 := ⟨13, by norm_num⟩
def OP_8XY5 : Fin 34 := ⟨14, by norm_num⟩
def OP_8XY6 : Fin 34 := ⟨15, by norm_num⟩
def OP_8XY7 : Fin 34 := ⟨16, by norm_num⟩
def OP_8XYE : Fin 34 := ⟨17, by norm_num⟩
def OP_9XY0 : Fin 34 := ⟨18, by norm_num⟩
def OP_ANNN : Fin 34 := ⟨19, by norm_num⟩
def OP_BNNN : Fin 34 := ⟨20, by norm_num⟩
def OP_CXNN : Fin 34 := ⟨21, by norm_num⟩
def OP_DXYN : Fin 34 := ⟨22, by norm_num⟩
def OP_EX9E : Fin 34 := ⟨23, by norm_num⟩
def OP_EXA1 : Fin 34 := ⟨24, by norm_num⟩
def OP_FX07 : Fin 34 := ⟨25, by norm_num⟩
def OP_FX0A : Fin 34 := ⟨26, by norm_num⟩
def OP_FX15 : Fin 34 := ⟨27, by norm_num⟩
def OP_FX18 : Fin 34 := ⟨28, by norm_num⟩
def OP_FX1E : Fin 34 := ⟨29, by norm_num⟩
def OP_FX29 : Fin 34 := ⟨30, by norm_num⟩
def OP_FX33 : Fin 34 := ⟨31, by norm_num⟩
def OP_FX55 : Fin 34 := ⟨32, by norm_num⟩
def OP_FX65 : Fin 34 := ⟨33, by norm_num⟩

/-- Modelled from the spec: make_nop_set is called by make_standard_set but its
definition is not among the provided sources; section 4.3 of the spec says an
InstructionSet is default-initialized to a no-op that reads nothing, mutates
nothing and advances nothing beyond the fetch already performed. -/
def make_nop_set : InstructionSet := fun _ => fun _ state => state

/-- Storing a slot of the table (the Rust array element assignment). -/
def setSlot (set : InstructionSet) (i : Fin 34) (f : Instr) : InstructionSet :=
  fun j => if j = i then f else set j

/-- make_standard_set (trip-night-instruction/src/lib.rs, lines 8-81): starts
from the no-op table and fills the slots listed in the source; the E and F
family slots are commented-out TODOs there and stay no-ops. Every filled slot
is the make_instruction wrapper: decode the opcode, then execute. -/
def make_standard_set : InstructionSet :=
  let set := make_nop_set
  let set := setSlot set OP_00E0 (fun _op state => ClearScreen.execute state)
  let set := setSlot set OP_00EE (fun _op state => Ret.execute state)
  let set := setSlot set OP_1NNN (fun op state => Jump.execute (Jump.decode op) state)
  let set := setSlot set OP_2NNN (fun op state => Call.execute (Call.decode op) state)
  let set := setSlot set OP_3XNN (fun op state => SkipEqConst.execute (SkipEqConst.decode op) state)
  let set := setSlot set OP_4XNN (fun op state => SkipNeqConst.execute (SkipNeqConst.decode op) state)
  let set := setSlot set OP_5XY0 (fun op state => SkipEq.execute (SkipEq.decode op) state)
  let set := setSlot set OP_6XNN (fun op state => SetReg.execute (SetReg.decode op) state)
  let set := setSlot set OP_7XNN (fun op state => AddConst.execute (AddConst.decode op) state)
  let set := setSlot set OP_8XY0 (fun op state => Assign.execute (Assign.decode op) state)
  let set := setSlot set OP_8XY1 (fun op state => BitOr.execute (BitOr.decode op) state)
  let set := setSlot set OP_8XY2 (fun op state => BitAnd.execute (BitAnd.decode op) state)
  let set := setSlot set OP_8XY3 (fun op state => BitXor.execute (BitXor.decode op) state)
  let set := setSlot set OP_8XY4 (fun op state => Add.execute (Add.decode op) state)
  let set := setSlot set OP_8XY5 (fun op state => Sub.execute (Sub.decode op) state)
  let set := setSlot set OP_8XY6 (fun op state => ShiftRight.execute (ShiftRight.decode op) state)
  let set := setSlot set OP_8XY7 (fun op state => SubN.execute (SubN.decode op) state)
  let set := setSlot set OP_8XYE (fun op state => ShiftLeft.execute (ShiftLeft.decode op) state)
  let set := setSlot set OP_9XY0 (fun op state => SkipNeq.execute (SkipNeq.decode op) state)
  let set := setSlot set OP_ANNN (fun op state => SetIndex.execute (SetIndex.decode op) state)
  let set := setSlot set OP_BNNN (fun op state => JumpOffset.execute (JumpOffset.decode op) state)
  let set := setSlot set OP_CXNN (fun op state => Random.execute (Random.decode op) state)
  let set := setSlot set OP_DXYN (fun op state => Draw.execute (Draw.decode op) state)
  set

/-- make_legacy_set: the standard table with the two shift slots overridden by
the legacy variants. -/
def make_legacy_set : InstructionSet :=
  let set := make_standard_set
  let set := setSlot set OP_8XY6
    (fun op state => ShiftRightLegacy.execute (ShiftRightLegacy.decode op) state)
  let set := setSlot set OP_8XYE
    (fun op state => ShiftLeftLegacy.execute (ShiftLeftLegacy.decode op) state)
  set

/-! ### Decoder (trip-night-core/src/decode.rs) -/

inductive UnknownInstructionError | mk
deriving DecidableEq, Repr

/-- decode_instruction: two-level dispatch on the opcode bit pattern. The Rust
match on integer literals is written as the equivalent chain of equality
tests. The final branch (first nibble above 0xF) is unreachable because
get_first_nibble is always below 16. -/
def decode_instruction (set : InstructionSet) (op : Nat) :
    Except UnknownInstructionError Instr :=
  if getFirstNibble op = 0x0 then
    if op = 0x00E0 then .ok (set OP_00E0)
    else if op = 0x00EE then .ok (set OP_00EE)
    else .error UnknownInstructionError.mk
  else if getFirstNibble op = 0x1 then .ok (set OP_1NNN)
  else if getFirstNibble op = 0x2 then .ok (set OP_2NNN)
  else if getFirstNibble op = 0x3 then .ok (set OP_3XNN)
  else if getFirstNibble op = 0x4 then .ok (set OP_4XNN)
  else if getFirstNibble op = 0x5 then .ok (set OP_5XY0)
  else if getFirstNibble op = 0x6 then .ok (set OP_6XNN)
  else if getFirstNibble op = 0x7 then .ok (set OP_7XNN)
  else if getFirstNibble op = 0x8 then
    if getN op = 0x0 then .ok (set OP_8XY0)
    else if getN op = 0x1 then .ok (set OP_8XY1)
    else if getN op = 0x2 then .ok (set OP_8XY2)
    else if getN op = 0x3 then .ok (set OP_8XY3)
    else if getN op = 0x4 then .ok (set OP_8XY4)
    else if getN op = 0x5 then .ok (set OP_8XY5)
    else if getN op = 0x6 then .ok (set OP_8XY6)
    else if getN op = 0x7 then .ok (set OP_8XY7)
    else if getN op = 0xE then .ok (set OP_8XYE)
    else .error UnknownInstructionError.mk
  else if getFirstNibble op = 0x9 then .ok (set OP_9XY0)
  else if getFirstNibble op = 0xA then .ok (set OP_ANNN)
  else if getFirstNibble op = 0xB then .ok (set OP_BNNN)
  else if getFirstNibble op = 0xC then .ok (set OP_CXNN)
  else if getFirstNibble op = 0xD then .ok (set OP_DXYN)
  else if getFirstNibble op = 0xE then
    if getNN op = 0x9E then .ok (set OP_EX9E)
    else if getNN op = 0xA1 then .ok (set OP_EXA1)
    else .error UnknownInstructionError.mk
  else if getFirstNibble op = 0xF then
    if getNN op = 0x07 then .ok (set OP_FX07)
    else if getNN op = 0x0A then .ok (set OP_FX0A)
    else if getNN op = 0x15 then .ok (set OP_FX15)
    else if getNN op = 0x18 then .ok (set OP_FX18)
    else if getNN op = 0x1E then .ok (set OP_FX1E)
    else if getNN op = 0x29 then .ok (set OP_FX29)
    else if getNN op = 0x33 then .ok (set OP_FX33)
    else if getNN op = 0x55 then .ok (set OP_FX55)
    else if getNN op = 0x65 then .ok (set OP_FX65)
    else .error UnknownInstructionError.mk
  else .error UnknownInstructionError.mk

/-- Transcription of the two-level dispatch table as the claim and section 4.2
of the spec state it: the slot index is selected by the first nibble, refined
by the full 16-bit word for family 0x0, by the low nibble for family 0x8 and
by the low byte for families 0xE and 0xF; every combination outside the 34
enumerated ones is unknown (none). This is the spec-side definition compared
against decode_instruction. -/
def specDispatch (op : Nat) : Option (Fin 34) :=
  if getFirstNibble op = 0x0 then
    if op = 0x00E0 then some OP_00E0
    else if op = 0x00EE then some OP_00EE
    else none
  else if getFirstNibble op = 0x1 then some OP_1NNN
  else if getFirstNibble op = 0x2 then some OP_2NNN
  else if getFirstNibble op = 0x3 then some OP_3XNN
  else if getFirstNibble op = 0x4 then some OP_4XNN
  else if getFirstNibble op = 0x5 then some OP_5XY0
  else if getFirstNibble op = 0x6 then some OP_6XNN
  else if getFirstNibble op = 0x7 then some OP_7XNN
  else if getFirstNibble op = 0x8 then
    if getN op = 0x0 then some OP_8XY0
    else if getN op = 0x1 then some OP_8XY1
    else if getN op = 0x2 then some OP_8XY2
    else if getN op = 0x3 then some OP_8XY3
    else if getN op = 0x4 then some OP_8XY4
    else if getN op = 0x5 then some OP_8XY5
    else if getN op = 0x6 then some OP_8XY6
    else if getN op = 0x7 then some OP_8XY7
    else if getN op = 0xE then some OP_8XYE
    else none
  else if getFirstNibble op = 0x9 then some OP_9XY0
  else if getFirstNibble op = 0xA then some OP_ANNN
  else if getFirstNibble op = 0xB then some OP_BNNN
  else if getFirstNibble op = 0xC then some OP_CXNN
  else if getFirstNibble op = 0xD then some OP_DXYN
  else if getFirstNibble op = 0xE then
    if getNN op = 0x9E then some OP_EX9E
    else if getNN op = 0xA1 then some OP_EXA1
    else none
  else if getFirstNibble op = 0xF then
    if getNN op = 0x07 then some OP_FX07
    else if getNN op = 0x0A then some OP_FX0A
    else if getNN op = 0x15 then some OP_FX15
    else if getNN op = 0x18 then some OP_FX18
    else if getNN op = 0x1E then some OP_FX1E
    else if getNN op = 0x29 then some OP_FX29
    else if getNN op = 0x33 then some OP_FX33
    else if getNN op = 0x55 then some OP_FX55
    else if getNN op = 0x65 then some OP_FX65
    else none
  else none

/-! ### Engine (trip-night-core/src/machine.rs, Machine) -/

structure Machine where
  state : MachState
  instruction_set : InstructionSet
  frequency_hz : Nat
  counter : Nat

/-- Machine::update_counter: every max(frequency/60, 1) cycles both timers are
decremented by one, saturating at 0 (u8::saturating_sub is truncated Nat
subtraction here). -/
def Machine.update_counter (m : Machine) : Machine :=
  let counter := m.counter + 1
  let modulus := max (m.frequency_hz / 60) 1
  { m with
    counter := counter
    state := { m.state with
      delay_timer :=
        if counter % modulus = 0 then m.state.delay_timer - 1 else m.state.delay_timer
      sound_timer :=
        if counter % modulus = 0 then m.state.sound_timer - 1 else m.state.sound_timer } }

/-- Machine::fetch_opcode: big-endian 16-bit word at pc, then pc advances by 2. -/
def Machine.fetch_opcode (m : Machine) : Machine × Nat :=
  let first := m.state.ram m.state.pc
  let second := m.state.ram (m.state.pc + 1)
  let op := first * 256 + second
  ({ m with state := { m.state with pc := m.state.pc + 2 } }, op)

/-- Machine::cycle. The source calls unwrap() on the decode result, so an
unknown instruction panics; the panic is modelled as none. -/
def Machine.cycle (m : Machine) : Option Machine :=
  let m1 := m.update_counter
  let m2 := { m1 with state := { m1.state with screen := m1.state.screen.reset_changed_flag } }
  let fr := m2.fetch_opcode
  match decode_instruction fr.1.instruction_set fr.2 with
  | .error _ => none
  | .ok instr => some { fr.1 with state := instr fr.2 fr.1.state }

/-- The big-endian word the next cycle will fetch, read from the machine as it
is before the cycle (update_counter and the dirty-flag reset touch neither ram
nor pc). -/
def Machine.fetched_opcode (m : Machine) : Nat :=
  m.state.ram m.state.pc * 256 + m.state.ram (m.state.pc + 1)

/-- n engine steps in sequence; none as soon as one cycle panics. -/
def cycleN : Nat → Machine → Option Machine
  | 0, m => some m
  | n + 1, m =>
    match m.cycle with
    | none => none
    | some m1 => cycleN n m1

/-- A slot neither reads nor writes the two timer registers (the timer-setting
instructions FX15 and FX18 are unimplemented TODOs in the source). -/
def PreservesTimers (f : Instr) : Prop :=
  ∀ (op : Nat) (s : MachState),
    (f op s).delay_timer = s.delay_timer ∧ (f op s).sound_timer = s.sound_timer

/-! ### Concrete fixtures used by the witnesses and counterexamples -/

/-- A small machine state: empty ram and stack and screen, pc at the program
start, one pushed return address, tunable register file. -/
def testState (regs : Fin 16 → Nat) : MachState :=
  { ram := fun _ => 0
    pc := 0x200
    index := 0
    stack := fun _ => 0
    stack_pointer := 1
    delay_timer := 0
    sound_timer := 0
    registers := regs
    screen := { inner := fun _ => 0, changed := false } }

/-- V0 = 1, V1 = 2, VF = 7, all others 0. -/
def sStar : MachState :=
  testState (fun i => if i = 0 then 1 else if i = 1 then 2 else if i = 15 then 7 else 0)

/-- V0 = 1 (low bit set), V1 = 0x80 (high bit set). -/
def sC1 : MachState :=
  testState (fun i => if i = 0 then 1 else if i = 1 then 0x80 else 0)

/-- VF = 200, V0 = 100: their sum overflows a byte. -/
def sC5 : MachState :=
  testState (fun i => if i = 15 then 200 else if i = 0 then 100 else 0)

/-- V0 = 0, V1 = 1: distinct source registers with the same shifted value. -/
def sC6 : MachState :=
  testState (fun i => if i = 1 then 1 else 0)

/-- All registers 0. -/
def sC9 : MachState := testState (fun _ => 0)

/-- The finitely observable part of a state, for deciding state inequality. -/
structure Obs where
  pc : Nat
  index : Nat
  sp : Nat
  dt : Nat
  st : Nat
  regs : List Nat
  dirty : Bool
deriving DecidableEq, Repr

def obs (s : MachState) : Obs :=
  { pc := s.pc, index := s.index, sp := s.stack_pointer, dt := s.delay_timer,
    st := s.sound_timer, regs := List.ofFn s.registers, dirty := s.screen.changed }

/-- For each populated slot index, an opcode that visibly moves sStar. -/
def opFor : Fin 34 → Nat := fun i =>
  [0x00E0, 0x00EE, 0x1300, 0x2300, 0x3001, 0x4000, 0x5000, 0x6005, 0x7001,
   0x8010, 0x8011, 0x8012, 0x8013, 0x8014, 0x8015, 0x8016, 0x8017, 0x801E,
   0x9010, 0xA2F0, 0xB300, 0xC0FF, 0xD011].getD i.val 0

/-- A machine whose next fetch reads the word 0x0000, which no table entry
covers. -/
def mUnknown : Machine :=
  { state := testState (fun _ => 0)
    instruction_set := make_standard_set
    frequency_hz := 60
    counter := 0 }

/-- A machine whose next fetch reads 0x1300, a Jump: its cycle succeeds. -/
def mJump : Machine :=
  { state := { testState (fun _ => 0) with ram := fun a => if a = 0x200 then 0x13 else 0 }
    instruction_set := make_standard_set
    frequency_hz := 60
    counter := 0 }

/-! ### Helper lemmas -/

set_option maxHeartbeats 2000000 in
/-- decode_instruction agrees with the dispatch table everywhere: it yields
exactly the slot of specDispatch, and the unknown-instruction error exactly
where specDispatch has no entry. Shared helper, proved once. -/
theorem decode_eq_specDispatch (set : InstructionSet) (op : Nat) :
    decode_instruction set op =
      (specDispatch op).elim (Except.error UnknownInstructionError.mk)
        (fun i => Except.ok (set i)) := by
  unfold decode_instruction specDispatch
  have hb : getFirstNibble op < 16 := Nat.mod_lt _ (by norm_num)
  generalize ha : getFirstNibble op = a
  have hb2 : a < 16 := ha ▸ hb
  interval_cases a <;> norm_num [Option.elim] <;> split_ifs <;> rfl

theorem preservesTimers_setSlot {set : InstructionSet} {j : Fin 34} {f : Instr}
    (hs : ∀ i, PreservesTimers (set i)) (hf : PreservesTimers f) :
    ∀ i, PreservesTimers (setSlot set j f i) := by
  intro i op s
  unfold setSlot
  split
  · exact hf op s
  · exact hs i op s

theorem make_standard_set_preservesTimers :
    ∀ i, PreservesTimers (make_standard_set i) := by
  unfold make_standard_set
  repeat' apply preservesTimers_setSlot
  any_goals exact fun _ _ _ => ⟨rfl, rfl⟩
  all_goals intro op s
  all_goals try simp only [ClearScreen.execute, Ret.execute, Jump.execute, Call.execute,
    SkipEqConst.execute, SkipNeqConst.execute, SkipEq.execute, SkipNeq.execute,
    JumpOffset.execute, SetReg.execute, AddConst.execute, Assign.execute,
    BitOr.execute, BitAnd.execute, BitXor.execute, Add.execute, Sub.execute,
    SubN.execute, ShiftRight.execute, ShiftLeft.execute, Random.execute,
    SetIndex.execute, Draw.execute, MachState.reg_write, MachState.stack_push,
    MachState.stack_pop, Screen.clear, make_nop_set]
  all_goals first
    | trivial
    | (split_ifs <;> trivial)

theorem make_legacy_set_preservesTimers :
    ∀ i, PreservesTimers (make_legacy_set i) := by
  unfold make_legacy_set
  apply preservesTimers_setSlot
  · apply preservesTimers_setSlot
    · exact make_standard_set_preservesTimers
    · intro op s
      simp only [ShiftRightLegacy.execute, MachState.reg_write]
      split_ifs <;> exact ⟨rfl, rfl⟩
  · intro op s
    simp only [ShiftLeftLegacy.execute, MachState.reg_write]
    split_ifs <;> exact ⟨rfl, rfl⟩

/-- Machine::cycle written out: the step panics (none) exactly when the
dispatch table has no entry for the fetched word, and otherwise runs the
dispatched slot on the state with updated timers, cleared dirty flag and
advanced pc. -/
theorem cycle_eq_dispatch (m : Machine) :
    m.cycle =
      (specDispatch m.fetched_opcode).elim none
        (fun i => some
          { state := m.instruction_set i m.fetched_opcode
              { m.update_counter.state with
                  screen := m.update_counter.state.screen.reset_changed_flag
                  pc := m.update_counter.state.pc + 2 }
            instruction_set := m.instruction_set
            frequency_hz := m.frequency_hz
            counter := m.counter + 1 }) := by
  simp only [Machine.cycle, Machine.update_counter, Machine.fetch_opcode,
    Machine.fetched_opcode, Screen.reset_changed_flag]
  rw [decode_eq_specDispatch]
  cases hsd : specDispatch (m.state.ram m.state.pc * 256 + m.state.ram (m.state.pc + 1)) with
  | none => simp [Option.elim]
  | some i => simp [Option.elim]

/-- One engine step keeps the instruction set, and keeps a timer at zero
whenever every slot of the set leaves the timers alone. -/
theorem cycle_timers (m m' : Machine)
    (hset : ∀ i, PreservesTimers (m.instruction_set i))
    (hc : m.cycle = some m') :
    m'.instruction_set = m.instruction_set ∧
    (m.state.delay_timer = 0 → m'.state.delay_timer = 0) ∧
    (m.state.sound_timer = 0 → m'.state.sound_timer = 0) := by
  rw [cycle_eq_dispatch] at hc
  cases hsd : specDispatch m.fetched_opcode with
  | none =>
    rw [hsd] at hc
    simp [Option.elim] at hc
  | some i =>
    rw [hsd] at hc
    simp only [Option.elim] at hc
    have hm' := Option.some.inj hc
    subst hm'
    refine ⟨rfl, ?_, ?_⟩
    · intro h0
      rw [(hset i _ _).1]
      simp only [Machine.update_counter]
      split_ifs <;> simp [h0]
    · intro h0
      rw [(hset i _ _).2]
      simp only [Machine.update_counter]
      split_ifs <;> simp [h0]

/-! ### The claims -/

/-- Claim C1 (code bug, evaluated at the failing input): executing standard
ShiftRight on a state whose X register holds 1 (low bit set) stores the value
shifted right by 1 but leaves register 15 at 0, although the claim and the
doc comment of the instruction say the flag receives the shifted-out bit 1;
symmetrically ShiftLeft on an X register holding 0x80 (high bit set) leaves
register 15 at 0. The flag comes from the Bool of u8::overflowing_shr/shl,
which reports an oversized shift amount, never the shifted-out bit. -/
theorem c1_shift_flag_stuck_at_zero :
    (ShiftRight.execute (ShiftRight.decode 0x8016) sC1).registers VF = 0 ∧
    sC1.registers (getX 0x8016) % 2 = 1 ∧
    (ShiftRight.execute (ShiftRight.decode 0x8016) sC1).registers (getX 0x8016)
      = sC1.registers (getX 0x8016) / 2 ∧
    (ShiftLeft.execute (ShiftLeft.decode 0x812E) sC1).registers VF = 0 ∧
    sC1.registers (getX 0x812E) / 128 = 1 ∧
    (ShiftLeft.execute (ShiftLeft.decode 0x812E) sC1).registers (getX 0x812E)
      = sC1.registers (getX 0x812E) * 2 % 256 := by
  decide

/-- Claim C2: for every opcode, decoding against any instruction set returns
exactly the slot selected by the two-level dispatch table specDispatch (first
nibble; full word for family 0x0, low nibble for family 0x8, low byte for
families 0xE and 0xF), and the unknown-instruction error exactly on the
combinations outside the 34 enumerated ones, never some slot. -/
theorem c2_decode_two_level_dispatch (set : InstructionSet) (op : Nat) :
    decode_instruction set op =
      (specDispatch op).elim (Except.error UnknownInstructionError.mk)
        (fun i => Except.ok (set i)) :=
  decode_eq_specDispatch set op

/-- Claim C3 counterexample: the standard assembly does NOT fill all 34 slots;
slot OP_EX9E (and every E and F family slot) is left as the default no-op, so
there is a slot that behaves as the do-nothing default on every input. -/
theorem c3_standard_set_has_nop_slot :
    make_standard_set OP_EX9E = fun _ state => state := rfl

/-- Claim C3 amended: the standard assembly populates exactly the slots with
index 0 to 22 (families 0x0 to 0xD); each of those is not the default no-op:
on the state sStar there is an opcode on which the slot visibly changes the
state. The eleven key/timer slots (OP_EX9E .. OP_FX65) stay no-ops. -/
theorem c3_populated_slots_move_state (i : Fin 34) (h : i.val ≤ 22) :
    make_standard_set i (opFor i) sStar ≠ sStar := by
  have key : ∀ j : Fin 34,
      ¬(j.val ≤ 22 ∧ obs (make_standard_set j (opFor j) sStar) = obs sStar) := by
    decide
  intro heq
  exact key i ⟨h, congrArg obs heq⟩

/-- Witness for C3 amended at slot 0 (the 00E0 clear-screen slot). -/
theorem c3_populated_slots_move_state_witness :
    make_standard_set OP_00E0 (opFor OP_00E0) sStar ≠ sStar :=
  c3_populated_slots_move_state OP_00E0 (by decide)

/-- Claim C4 counterexample: on a machine about to fetch the word 0x0000 (not
one of the 34 combinations), the step does not return an unknown-instruction
outcome to its caller: Machine::cycle unwraps the decode result and panics
(modelled none). -/
theorem c4_cycle_panics_on_unknown : Machine.cycle mUnknown = none := rfl

/-- Claim C4 amended: when the fetched word has no entry in the dispatch
table, the step aborts (the unwrap panic, modelled none) instead of returning
a distinct outcome; it panics exactly on unknown instructions and never
executes some slot in that case. -/
theorem c4_cycle_none_iff_unknown (m : Machine) :
    m.cycle = none ↔
      decode_instruction m.instruction_set m.fetched_opcode
        = Except.error UnknownInstructionError.mk := by
  rw [cycle_eq_dispatch, decode_eq_specDispatch]
  cases h : specDispatch m.fetched_opcode <;> simp [Option.elim]

/-- Claim C5 counterexample: Add with operand register X = 15 writes the
carry flag first and the wrapped sum last, so with V15 = 200 and V0 = 100
register 15 ends holding the wrapped sum 44, not the carry flag 1 the claim
requires. -/
theorem c5_flag_overwritten_by_result :
    (Add.execute (Add.decode 0x8F04) sC5).registers VF = 44 ∧ (44 : Nat) ≠ 1 := by
  decide

/-- Claim C5 amended: for Add, Sub, SubN and the shifts the operand-register
write happens last, so when the opcode picks register 15 as operand register
the final value of register 15 is the wrapped arithmetic result, not the
flag; Draw is the exception: it writes only register 15, leaving every other
register untouched. -/
theorem c5_result_written_last (s : MachState) (y : Fin 16) :
    (Add.execute { left := VF, right := y } s).registers VF
      = (s.registers VF + s.registers y) % 256 ∧
    (Sub.execute { left := VF, right := y } s).registers VF
      = (s.registers VF + 256 - s.registers y) % 256 ∧
    (SubN.execute { left := VF, right := y } s).registers VF
      = (s.registers y + 256 - s.registers VF) % 256 ∧
    (ShiftRight.execute { left := VF, right := y } s).registers VF
      = s.registers VF >>> 1 ∧
    (ShiftLeft.execute { left := VF, right := y } s).registers VF
      = (s.registers VF <<< 1) % 256 ∧
    (∀ (d : Draw) (i : Fin 16), i ≠ VF →
      (Draw.execute d s).registers i = s.registers i) := by
  refine ⟨?_, ?_, ?_, ?_, ?_, ?_⟩
  · simp [Add.execute, U8.overflowing_add, MachState.reg_write, MachState.reg_read]
  · simp [Sub.execute, U8.overflowing_sub, MachState.reg_write, MachState.reg_read]
  · simp [SubN.execute, U8.overflowing_sub, MachState.reg_write, MachState.reg_read]
  · simp [ShiftRight.execute, U8.overflowing_shr, MachState.reg_write, MachState.reg_read]
  · simp [ShiftLeft.execute, U8.overflowing_shl, MachState.reg_write, MachState.reg_read]
  · intro d i hi
    simp only [Draw.execute, MachState.reg_write]
    split_ifs <;> simp [hi]

/-- Witness for C5 amended: at the concrete state sC5, Draw leaves register 3
unchanged. -/
theorem c5_result_written_last_witness :
    (Draw.execute (Draw.decode 0xD010) sC5).registers (3 : Fin 16)
      = sC5.registers (3 : Fin 16) :=
  (c5_result_written_last sC5 (getY 0xD010)).2.2.2.2.2
    (Draw.decode 0xD010) (3 : Fin 16) (by decide)

/-- Claim C6 (code bug, evaluated at the failing input): with V0 = 0 and
V1 = 1 the source registers differ, yet the standard and legacy shift-right
slots produce the SAME resulting state, because the flag register receives
the constant 0 (the overflowing_shr Bool, see C1) instead of the shifted-out
bit that would distinguish the two executions. -/
theorem c6_tables_coincide_on_distinct_sources :
    make_standard_set OP_8XY6 0x8016 sC6 = make_legacy_set OP_8XY6 0x8016 sC6 ∧
    sC6.registers (getX 0x8016) ≠ sC6.registers (getY 0x8016) := by
  exact ⟨rfl, by decide⟩

/-- Claim C7: flipping the same 8-bit pattern at the same coordinates twice
restores every row bitmask (hence every pixel), and one flip_vectored call
reports the UnsetBit collision exactly when a set bit of the pre-XOR row
overlaps the placed mask. -/
theorem c7_flip_involution_and_collision (s : Screen) (vector x y : Nat) :
    ((s.flip_vectored vector x y).1.flip_vectored vector x y).1.inner = s.inner ∧
    ((s.flip_vectored vector x y).2 = FlipResult.UnsetBit ↔
      s.inner (y &&& 0x1F) &&& Screen.generate_mask vector (x &&& 0x3F) ≠ 0) := by
  constructor
  · funext r
    simp only [Screen.flip_vectored, Screen.clamp]
    by_cases hr : r = (y &&& 0x1F) <;>
      simp [hr, Nat.xor_assoc]
  · simp only [Screen.flip_vectored, Screen.clamp]
    split_ifs with h <;> simp [h]

/-- Claim C8: under the standard or the legacy instruction set, a timer that
has reached 0 stays 0 for any number of further engine steps (the per-step
decrement saturates at 0, and no implemented instruction sets a timer). -/
theorem c8_timers_stick_at_zero (n : Nat) (m : Machine)
    (hset : m.instruction_set = make_standard_set ∨
      m.instruction_set = make_legacy_set) :
    (m.state.delay_timer = 0 →
      Option.all (fun m2 => decide (m2.state.delay_timer = 0)) (cycleN n m) = true) ∧
    (m.state.sound_timer = 0 →
      Option.all (fun m2 => decide (m2.state.sound_timer = 0)) (cycleN n m) = true) := by
  induction n generalizing m with
  | zero =>
    constructor <;> intro h0 <;> simp [cycleN, Option.all, h0]
  | succ n ih =>
    have hP : ∀ i, PreservesTimers (m.instruction_set i) := by
      rcases hset with h | h <;> rw [h]
      · exact make_standard_set_preservesTimers
      · exact make_legacy_set_preservesTimers
    cases hc : m.cycle with
    | none =>
      constructor <;> intro h0 <;> simp [cycleN, hc, Option.all]
    | some m1 =>
      obtain ⟨hseteq, hd, hs2⟩ := cycle_timers m m1 hP hc
      have hset1 : m1.instruction_set = make_standard_set ∨
          m1.instruction_set = make_legacy_set := by
        rw [hseteq]; exact hset
      have hrec := ih m1 hset1
      constructor <;> intro h0
      · have h1 := hrec.1 (hd h0)
        simpa [cycleN, hc] using h1
      · have h1 := hrec.2 (hs2 h0)
        simpa [cycleN, hc] using h1

/-- Witness for C8: one successful step of a concrete machine (standard set,
zero timers, a Jump at the program counter) keeps both timers at 0. -/
theorem c8_timers_stick_at_zero_witness :
    (cycleN 1 mJump).isSome = true ∧
    Option.all (fun m2 => decide (m2.state.delay_timer = 0)) (cycleN 1 mJump) = true ∧
    Option.all (fun m2 => decide (m2.state.sound_timer = 0)) (cycleN 1 mJump) = true :=
  ⟨rfl, (c8_timers_stick_at_zero 1 mJump (Or.inl rfl)).1 rfl,
    (c8_timers_stick_at_zero 1 mJump (Or.inl rfl)).2 rfl⟩

/-- Claim C9 counterexample: the Random instruction has no pluggable byte
source to inject: its execute reads no randomness input at all and stores the
fixed stub constant 0x7A (masked), here 0x7A itself with mask 0xFF, so no two
executions from the same state can store different values. -/
theorem c9_random_stores_fixed_byte :
    (Random.execute (Random.decode 0xC0FF) sC9).registers (getX 0xC0FF) = 0x7A := by
  decide

/-- Claim C9 amended: Random writes 0x7A AND mask (the fixed stub constant of
the TODO in the source, consumed from no external source) into the target
register and leaves every other register unchanged; the result is the same in
every execution from a given state. -/
theorem c9_random_is_stub (s : MachState) (t : Fin 16) (mask : Nat) :
    (Random.execute { target := t, mask := mask } s).registers t = 0x7A &&& mask ∧
    (∀ i : Fin 16, i ≠ t →
      (Random.execute { target := t, mask := mask } s).registers i = s.registers i) := by
  constructor
  · simp [Random.execute, MachState.reg_write]
  · intro i hi
    simp [Random.execute, MachState.reg_write, hi]

/-- Witness for C9 amended: at the concrete state sC9, Random with mask 0xFF
targeting register 0 leaves register 1 unchanged. -/
theorem c9_random_is_stub_witness :
    (Random.execute { target := getX 0xC0FF, mask := getNN 0xC0FF } sC9).registers
        (1 : Fin 16) = sC9.registers (1 : Fin 16) :=
  (c9_random_is_stub sC9 (getX 0xC0FF) (getNN 0xC0FF)).2 (1 : Fin 16) (by decide)

/-- Claim C10 (code bug, evaluated at the failing input): the decoder routes
the opcode 0x800E (first nibble 0x8, low nibble 0xE) to the shift-left slot
OP_8XYE, but the internal debug assertions of ShiftLeft::decode and
ShiftLeftLegacy::decode require the low nibble to equal 0x6 (a copy-paste of
the shift-right check), so they fail on every opcode routed to that slot. -/
theorem c10_shift_left_assert_violated :
    decode_instruction make_standard_set 0x800E
      = Except.ok (make_standard_set OP_8XYE) ∧
    specDispatch 0x800E = some OP_8XYE ∧
    ¬ ShiftLeft.decodeAssert 0x800E ∧
    ¬ ShiftLeftLegacy.decodeAssert 0x800E :=
  ⟨rfl, by decide, by decide, by decide⟩

end TripNight
